import Mathlib

/-!
Verification development for `beapy/bea_responses.py`: a shallow embedding of
the module's document model, field locator, response classifier, builders and
the tabular data assembler, together with theorems settling the specification
claims about them.

Conventions of the embedding:
* A parsed JSON document is a `Doc`: a string scalar, a sequence, or a mapping
  (Python `dict`, modelled as an association list in insertion order with
  unique keys; lookup takes the first match).  Every scalar occurring in BEA
  documents is a string, so no numeric scalar constructor is needed.
* Python exceptions are modelled with `Option`/`Except`: `none` or
  `Except.error` at a call site stands for the exception the source raises
  there.  Which exception class is raised is tracked by `BuildError`.
* `pandas`/`numpy` operations used by the source are modelled by executable
  Lean functions on an explicit data-frame structure; each model carries a
  comment naming the library behaviour it reflects.
-/

inductive Doc where
  | str : String → Doc
  | list : List Doc → Doc
  | dict : List (String × Doc) → Doc

/-- Python dict lookup `d[key]` on an association list: first matching key. -/
def dictGet {α : Type} (kvs : List (String × α)) (key : String) : Option α :=
  match kvs with
  | [] => none
  | (k, v) :: rest => if k = key then some v else dictGet rest key

/-- Python `d.pop(key)`: remove the (unique) entry for `key`. -/
def dictRemove (kvs : List (String × Doc)) (key : String) :
    List (String × Doc) :=
  match kvs with
  | [] => []
  | (k, v) :: rest => if k = key then rest else (k, v) :: dictRemove rest key

/-- Python dict assignment `d[k] = v`: overwrite in place, else append. -/
def insertPy {α : Type} (d : List (String × α)) (k : String) (v : α) :
    List (String × α) :=
  if d.any (fun kv => kv.1 == k) then
    d.map (fun kv => if kv.1 == k then (k, v) else kv)
  else
    d ++ [(k, v)]

mutual

/-- Embedding of `getitem_any_level(dct, key, pop)` (bea_responses.py:22-91).
Returns the located value together with the tree after the call (unchanged
when `pop = false`); `none` models the `KeyError` raised when the key is not
found.  The `.dict` branch mirrors the source exactly: if `key` is among the
level's keys, return (and optionally pop) it; otherwise recurse into each
child value in order, a failing child being swallowed by
`except KeyError: pass`.  The `.list` branch mirrors
`for d in dct: return getitem_any_level(d, key, pop)`, which returns from the
FIRST element unconditionally, so a failure inside the first element
propagates without the remaining elements being searched. -/
def getitem_any_level (dct : Doc) (key : String) (pop : Bool) :
    Option (Doc × Doc) :=
  match dct with
  | .dict kvs =>
      match dictGet kvs key with
      | some v =>
          if pop then some (v, .dict (dictRemove kvs key))
          else some (v, .dict kvs)
      | none =>
          match gialChildren kvs key pop with
          | some (v, kvs') => some (v, .dict kvs')
          | none => none
  | .list ds =>
      match ds with
      | [] => none
      | d :: rest =>
          match getitem_any_level d key pop with
          | some (v, d') => some (v, .list (d' :: rest))
          | none => none
  | .str _ => none

/-- The child loop of the `.dict` branch of `getitem_any_level`:
`for k in level_keys: try return getitem_any_level(dct[k], ...) except KeyError: pass`. -/
def gialChildren (kvs : List (String × Doc)) (key : String) (pop : Bool) :
    Option (Doc × List (String × Doc)) :=
  match kvs with
  | [] => none
  | (k, v) :: rest =>
      match getitem_any_level v key pop with
      | some (fv, v') => some (fv, (k, v') :: rest)
      | none =>
          match gialChildren rest key pop with
          | some (fv, rest') => some (fv, (k, v) :: rest')
          | none => none

end

mutual

/-- Number of occurrences of `key` as a mapping key anywhere in the tree. -/
def countKey (d : Doc) (key : String) : Nat :=
  match d with
  | .str _ => 0
  | .list ds => countKeyL ds key
  | .dict kvs => countKeyKV kvs key

def countKeyL (ds : List Doc) (key : String) : Nat :=
  match ds with
  | [] => 0
  | d :: rest => countKey d key + countKeyL rest key

def countKeyKV (kvs : List (String × Doc)) (key : String) : Nat :=
  match kvs with
  | [] => 0
  | (k, v) :: rest =>
      (if k = key then 1 else 0) + countKey v key + countKeyKV rest key

end

/-- The tree as left behind by `getitem_any_level(tree, key, pop=True)`:
the post-call tree on success, the unchanged tree when the call raised. -/
def popTree (t : Doc) (key : String) : Doc :=
  match getitem_any_level t key true with
  | some (_, t') => t'
  | none => t

/-- The exception classes the module can raise while building a response. -/
inductive BuildError where
  | fieldNotFound (key : String)
  | apiError (code descr : String)
  | unknownDataset (name : String)
  | malformed (what : String)
  | couldNotCreate (url : String)
deriving DecidableEq

/-- The message carried by each exception, as formatted by the source.
`fieldNotFound` carries the message of bea_responses.py:91 (the bare
`KeyError(key)` sites carry just the key; neither form mentions the URL).
`apiError` is formatted by `BEAAPIError.__init__` (lines 100-103),
`unknownDataset` by `series_identifiers` (line 384), and `couldNotCreate`
is the `ValueError` wrap of line 163-164. -/
def errMessage : BuildError → String
  | .fieldNotFound k => "key " ++ k ++ " was not found at any level of provided dict"
  | .apiError c d => "API Code: " ++ c ++ ". Description: " ++ d
  | .unknownDataset n => "no series identifier for " ++ n
  | .malformed w => w
  | .couldNotCreate u => "could not create BEAResponse. url is \n" ++ u

def exceptIsError {ε α : Type} : Except ε α → Bool
  | .error _ => true
  | .ok _ => false

/-- Boolean test that `needle` is a prefix of `hay` (character lists). -/
def charsPre : List Char → List Char → Bool
  | [], _ => true
  | _ :: _, [] => false
  | a :: as, b :: bs => a == b && charsPre as bs

/-- Boolean test that `needle` occurs contiguously inside `hay`. -/
def charsIncl (needle : List Char) : List Char → Bool
  | [] => charsPre needle []
  | c :: t => charsPre needle (c :: t) || charsIncl needle t

/-- Models the Python membership test `needle in hay` on strings. -/
def strIncl (needle hay : String) : Bool :=
  charsIncl needle.data hay.data

/-- Models `str.lower()` (ASCII, which covers every BEA dataset name). -/
def lowerString (s : String) : String :=
  ⟨s.data.map Char.toLower⟩

/-- Models `.str.replace(',', '')` on a value string: remove all commas. -/
def stripCommas (s : String) : String :=
  ⟨s.data.filter (fun c => c != ',')⟩

/-- Models Python `str.isnumeric()` for the ASCII strings BEA produces:
true iff the string is nonempty and consists solely of digits.  Decimal
points and signs are NOT numeric characters. -/
def pyIsNumeric (s : String) : Bool :=
  !s.isEmpty && s.data.all Char.isDigit

def digitsVal (cs : List Char) : Nat :=
  cs.foldl (fun a c => 10 * a + (c.toNat - 48)) 0

/-- A decimal number `mant / 10 ^ scale`, as produced by coercing a decimal
string.  `scale = 0` corresponds to pandas' `int64`, a positive scale to
`float64`.  The representation is not normalized (trailing fractional
zeros are kept), matching the digit strings it was read from. -/
structure PyNum where
  mant : Int
  scale : Nat
deriving DecidableEq

def pyNumMul (a b : PyNum) : PyNum :=
  ⟨a.mant * b.mant, a.scale + b.scale⟩

/-- Decimal rendering of `PyNum`, as `str()` produces for the integers and
simple decimals BEA documents contain. -/
def decimalRender (m : Int) (scale : Nat) : String :=
  if scale = 0 then toString m
  else
    let ds := (toString m.natAbs).data
    let padded := List.replicate (scale + 1 - ds.length) '0' ++ ds
    let cut := padded.length - scale
    (if m < 0 then "-" else "") ++ ⟨padded.take cut⟩ ++ "." ++ ⟨padded.drop cut⟩

def pyToNumericAux (cs : List Char) : Option PyNum :=
  let intPart := cs.takeWhile Char.isDigit
  let rest := cs.dropWhile Char.isDigit
  match rest with
  | [] => if intPart.isEmpty then none
          else some ⟨(digitsVal intPart : Int), 0⟩
  | '.' :: frac =>
      if frac.all Char.isDigit && !(intPart.isEmpty && frac.isEmpty) then
        some ⟨(digitsVal intPart * 10 ^ frac.length + digitsVal frac : Int),
              frac.length⟩
      else none
  | _ => none

/-- Models `pandas.to_numeric` on a single string entry: optional sign,
decimal digits with at most one decimal point.  (Exponent notation and
surrounding whitespace, which BEA value strings never use, are not
modelled.)  `none` models the `ValueError` pandas raises. -/
def pyToNumeric (s : String) : Option PyNum :=
  match s.data with
  | '-' :: cs => (pyToNumericAux cs).map (fun q => ⟨-q.mant, q.scale⟩)
  | '+' :: cs => pyToNumericAux cs
  | cs => pyToNumericAux cs

/-- Models Python `int(s)` for the `IsValue` dimension flags: optional sign
followed by digits only. -/
def pyInt (s : String) : Option Int :=
  match s.data with
  | [] => none
  | '-' :: cs => if cs.isEmpty || !cs.all Char.isDigit then none
                 else some (-(digitsVal cs : Int))
  | cs => if cs.all Char.isDigit then some (digitsVal cs : Int) else none

/-- One entry of a data-frame column: a string, a number, or missing (NaN). -/
inductive Cell where
  | s : String → Cell
  | n : PyNum → Cell
  | nan : Cell
deriving DecidableEq

/-- Models `astype(str)` on one cell; `str(float('nan'))` is `"nan"`. -/
def pyStrCell : Cell → String
  | .s t => t
  | .n q => decimalRender q.mant q.scale
  | .nan => "nan"

/-- The label a cell contributes when it becomes part of an index. -/
def cellLabel : Cell → String
  | .s t => t
  | .n q => decimalRender q.mant q.scale
  | .nan => "nan"

/-- Models `pandas.to_numeric` on one cell of a column; `none` models the
`ValueError` on an unparsable string, while NaN passes through. -/
def toNumericCell : Cell → Option Cell
  | .s t => (pyToNumeric t).map Cell.n
  | .n q => some (.n q)
  | .nan => some .nan

/-- Models `numpy.power(10, e)` for an exponent cell.  Numpy raises on
negative integer exponents ("Integers to negative integer powers are not
allowed"), modelled as an error; non-integral exponents never occur in BEA
`UNIT_MULT` columns and are modelled as the same error. -/
def npPower10 : Cell → Except BuildError Cell
  | .n q => if q.scale = 0 && 0 ≤ q.mant
            then .ok (.n ⟨(10 : Int) ^ q.mant.toNat, 0⟩)
            else .error (.malformed "np.power")
  | .nan => .ok .nan
  | .s _ => .error (.malformed "np.power")

/-- Models `numpy.multiply` on one (value, power) pair of an object column:
numbers multiply; a *string* value times an integer power is Python string
repetition; NaN propagates.  (String times a non-integer raises.) -/
def npMul : Cell → Cell → Except BuildError Cell
  | .n a, .n b => .ok (.n (pyNumMul a b))
  | .s t, .n b => if b.scale = 0 && 0 ≤ b.mant
                  then .ok (.s (String.join (List.replicate b.mant.toNat t)))
                  else .error (.malformed "str * float")
  | .nan, _ => .ok .nan
  | _, .nan => .ok .nan
  | .n _, .s _ => .error (.malformed "num * str")
  | .s _, .s _ => .error (.malformed "str * str")

/-- A pandas DataFrame: ordered column names, row index labels, and the cell
matrix in row-major order (each row aligned with `cols`). -/
structure DF where
  cols : List String
  idx : List String
  cells : List (List Cell)
deriving DecidableEq

/-- Column access `df[c]`; `none` models the `KeyError` on a missing column. -/
def DF.col? (df : DF) (c : String) : Option (List Cell) :=
  match df.cols.indexOf? c with
  | none => none
  | some j => some (df.cells.map (fun r => r.getD j .nan))

/-- Column assignment `df[c] = vals`: overwrite in place or append on the
right, as pandas does. -/
def DF.setCol (df : DF) (c : String) (vals : List Cell) : DF :=
  match df.cols.indexOf? c with
  | some j => { df with cells := df.cells.zipWith (fun r v => r.set j v) vals }
  | none =>
      { df with cols := df.cols ++ [c],
                cells := df.cells.zipWith (fun r v => r ++ [v]) vals }

/-- Models `df.loc[:, cs]`: select columns in the given order, keeping the
index; `none` models the `KeyError` on a missing column. -/
def DF.selectCols (df : DF) (cs : List String) : Option DF :=
  match cs.mapM (fun c => df.cols.indexOf? c) with
  | none => none
  | some js =>
      some { cols := cs, idx := df.idx,
             cells := df.cells.map (fun r => js.map (fun j => r.getD j .nan)) }

/-- Models `df.drop(columns=cs)`. -/
def DF.dropCols (df : DF) (cs : List String) : DF :=
  (df.selectCols (df.cols.filter (fun c => !(cs.contains c)))).getD df

/-- The series-identifier column name(s) of a dataset: a single field name or
an ordered list of field names, mirroring the str-vs-list return of the
source property. -/
inductive SeriesIds where
  | single (c : String)
  | multi (cs : List String)
deriving DecidableEq

/-- Embedding of the `series_identifiers` property (bea_responses.py:361-384):
the dataset name is read from the request's `DATASETNAME`, lowercased, and
looked up in the closed table; an unrecognized dataset raises
`ValueError('no series identifier for ...')`.  A missing `DATASETNAME` is the
`KeyError` of the dict access, a non-string one the `AttributeError` of
`.lower()`. -/
def series_identifiers (request : List (String × Doc)) :
    Except BuildError SeriesIds :=
  match dictGet request "DATASETNAME" with
  | some (.str ds) =>
      let dataset := lowerString ds
      if dataset ∈ ["nipa", "niunderlyingdetail", "fixedassets"] then
        .ok (.single "SeriesCode")
      else if dataset ∈ ["gdpbyindustry", "underlyinggdpbyindustry"] then
        .ok (.single "Industry")
      else if dataset ∈ ["ita", "iip", "intlservtrade"] then
        .ok (.single "TimeSeriesId")
      else if dataset = "mne" then
        .ok (.multi ["SeriesID", "RowCode", "ColumnCode"])
      else if dataset = "inputoutput" then
        .ok (.multi ["RowCode", "ColCode"])
      else if dataset = "regional" then
        .ok (.single "GeoFips")
      else .error (.unknownDataset dataset)
  | some _ => .error (.malformed "DATASETNAME has no lower()")
  | none => .error (.fieldNotFound "DATASETNAME")

/-- Embedding of the `period_identifier` property (bea_responses.py:387-405). -/
def period_identifier (request : List (String × Doc)) :
    Except BuildError String :=
  match dictGet request "DATASETNAME" with
  | some (.str ds) =>
      let dataset := lowerString ds
      if dataset ∈ ["nipa", "niunderlyingdetail", "fixedassets",
                    "ita", "iip", "intlservtrade", "regional"] then
        .ok "TimePeriod"
      else if dataset ∈ ["mne", "underlyinggdpbyindustry", "gdpbyindustry",
                         "inputoutput"] then
        .ok "Year"
      else .error (.unknownDataset dataset)
  | some _ => .error (.malformed "DATASETNAME has no lower()")
  | none => .error (.fieldNotFound "DATASETNAME")

/-- The datasets enumerated by the IdentifierRules table. -/
def knownDatasets : List String :=
  ["nipa", "niunderlyingdetail", "fixedassets",
   "gdpbyindustry", "underlyinggdpbyindustry",
   "ita", "iip", "intlservtrade", "mne", "inputoutput", "regional"]

/-- One dimension descriptor, as stored in `self.dimensions`. -/
structure DimInfo where
  dtype : String
  is_value : Bool
deriving DecidableEq

/-- The `Dimensions` loop of `DataResponse.__init__` (lines 211-217): each
entry must be a mapping providing `Name`, `DataType` and an integer-string
`IsValue`; `bool(int(...))` is true iff the integer is nonzero.  A missing
field raises `KeyError`, a non-sequence block (or a string-encoded one, whose
`ast.literal_eval` decoding is not modelled) raises inside the builder. -/
def parseDimensions : Doc → Except BuildError (List (String × DimInfo))
  | .list rows =>
      rows.foldlM (fun acc r =>
        match r with
        | .dict kvs =>
            match dictGet kvs "Name", dictGet kvs "DataType",
                  dictGet kvs "IsValue" with
            | some (.str n), some (.str t), some (.str v) =>
                match pyInt v with
                | some i => Except.ok (insertPy acc n ⟨t, decide (i ≠ 0)⟩)
                | none => Except.error (.malformed "IsValue")
            | some _, some _, some _ => Except.error (.malformed "Dimensions entry")
            | _, _, _ => Except.error (.fieldNotFound "Dimensions entry")
        | _ => Except.error (.malformed "Dimensions entry")) []
  | _ => Except.error (.malformed "Dimensions")

/-- The body of the `Notes` loop (lines 224-225), which runs inside
`try ... except KeyError: pass`: a row missing `NoteRef` or `NoteText`
raises `KeyError`, abandoning the loop with the notes collected so far;
a row that is not a mapping raises `TypeError`, which the handler does not
catch. -/
def notesLoop : List Doc → List (String × String) →
    Except BuildError (List (String × String))
  | [], acc => .ok acc
  | row :: rest, acc =>
      match row with
      | .dict kvs =>
          match dictGet kvs "NoteRef", dictGet kvs "NoteText" with
          | some (.str r), some (.str t) => notesLoop rest (insertPy acc r t)
          | some (.str _), none => .ok acc
          | none, _ => .ok acc
          | _, _ => .error (.malformed "Notes entry")
      | _ => .error (.malformed "Notes entry")

/-- The `Notes` step of `DataResponse.__init__` (lines 221-227): locate and
remove `Notes`; its absence (`KeyError`) is caught and ignored, leaving the
tree unchanged; a present but non-sequence block raises inside the builder. -/
def notesStep (bea_json : Doc) :
    Except BuildError (List (String × String) × Doc) :=
  match getitem_any_level bea_json "Notes" true with
  | none => .ok ([], bea_json)
  | some (notesDoc, json1) =>
      match notesDoc with
      | .list rows => (notesLoop rows []).map (fun ns => (ns, json1))
      | _ => .error (.malformed "Notes")

/-- Conversion of one observation row into data-frame cells.  BEA observation
rows are flat string-to-string mappings; a nested value is not modelled. -/
def rowCells (kvs : List (String × Doc)) : Option (List (String × Cell)) :=
  kvs.mapM (fun kv =>
    match kv.2 with
    | .str t => some (kv.1, Cell.s t)
    | _ => none)

/-- The `Data` block as a sequence of observation rows. -/
def rowsOfDoc : Doc → Option (List (List (String × Cell)))
  | .list ds =>
      ds.mapM (fun d =>
        match d with
        | .dict kvs => rowCells kvs
        | _ => none)
  | _ => none

def rowGet (r : List (String × Cell)) (c : String) : Cell :=
  match dictGet r c with
  | some v => v
  | none => .nan

def colsUnion (rows : List (List (String × Cell))) : List String :=
  rows.foldl
    (fun acc r =>
      r.foldl (fun a kv => if a.contains kv.1 then a else a ++ [kv.1]) acc)
    []

/-- Models `pandas.DataFrame(rows)`: columns are the row keys in order of
first appearance, the index is the default RangeIndex (rendered as strings
here), and a key missing from some row yields NaN. -/
def pdDataFrame (rows : List (List (String × Cell))) : DF :=
  let cs := colsUnion rows
  { cols := cs,
    idx := (List.range rows.length).map (fun i => toString i),
    cells := rows.map (fun r => cs.map (fun c => rowGet r c)) }

/-- Models `.str.cat(other, sep='_')` on one pair of cells: string
concatenation with the separator; a non-string operand yields NaN. -/
def pyStrCat (a b : Cell) : Cell :=
  match a, b with
  | .s x, .s y => .s (x ++ "_" ++ y)
  | _, _ => .nan

/-- Models `df['index'] = col; df.set_index('index', drop=True)`: the helper
column is immediately consumed as the new index, leaving the columns
unchanged (observation rows never carry a column literally named `index`). -/
def setIndexFrom (df : DF) (col : List Cell) : DF :=
  { df with idx := col.map cellLabel }

/-- The concatenation loop of `_set_unique_index`:
`for i in ids: df['index'] = df['index'].str.cat(df[i], sep='_')`. -/
def catColumns (df : DF) (ids : List String) (acc : List Cell) :
    Except BuildError (List Cell) :=
  match ids with
  | [] => .ok acc
  | i :: rest =>
      match df.col? i with
      | none => .error (.fieldNotFound i)
      | some ci => catColumns df rest (acc.zipWith pyStrCat ci)

/-- Embedding of `DataResponse._set_unique_index` (lines 344-358): the
series-identifier column(s) are concatenated with `_` (via `.str.cat`) in
declared order and become the shared row index. -/
def set_unique_index (request : List (String × Doc)) (df : DF) :
    Except BuildError DF :=
  match series_identifiers request with
  | .error e => .error e
  | .ok (.single i) =>
      match df.col? i with
      | none => .error (.fieldNotFound i)
      | some col => .ok (setIndexFrom df col)
  | .ok (.multi []) => .error (.malformed "empty identifier list")
  | .ok (.multi (i0 :: restIds)) =>
      match df.col? i0 with
      | none => .error (.fieldNotFound i0)
      | some col0 =>
          match catColumns df restIds col0 with
          | .error e => .error e
          | .ok catCol => .ok (setIndexFrom df catCol)

def dedupFirstStr (l : List String) : List String :=
  l.foldl (fun acc x => if acc.contains x then acc else acc ++ [x]) []

/-- Lexicographic comparison on character code points, used to order period
labels chronologically. -/
def charsLe : List Char → List Char → Bool
  | [], _ => true
  | _ :: _, [] => false
  | a :: as, b :: bs =>
      if a.toNat < b.toNat then true
      else if b.toNat < a.toNat then false
      else charsLe as bs

def strLeB (a b : String) : Bool :=
  charsLe a.data b.data

def insertSorted (x : String) : List String → List String
  | [] => [x]
  | y :: ys => if strLeB x y then x :: y :: ys else y :: insertSorted x ys

def sortStr (l : List String) : List String :=
  l.foldr insertSorted []

/-- The cell of column `data` in the tidy frame at series key `k` and period
`p`, or NaN when the pair does not occur. -/
def lookupDataCell (df : DF) (pId k p : String) : Cell :=
  match df.cols.indexOf? "index", df.cols.indexOf? pId,
        df.cols.indexOf? "data" with
  | some ji, some jp, some jd =>
      match df.cells.find? (fun r =>
          cellLabel (r.getD ji .nan) == k && cellLabel (r.getD jp .nan) == p) with
      | some r => r.getD jd .nan
      | none => .nan
  | _, _, _ => .nan

/-- Modelled from the spec: the Reshaper collaborator
(`beapy.formats.DataFormatter`, a repository module not present under src/)
receives the tidy frame and the period-column name and returns a wide frame
whose row index is the distinct period labels in chronological order
(annual `yyyy`, quarterly `yyyyQq`, monthly `yyyyMmm` labels sort
chronologically as strings within a frequency, modelled as ascending string
order) and whose columns are the distinct series keys in stable
first-appearance order. -/
def dataFormatter_format (df : DF) (pId : String) : DF :=
  let keys := dedupFirstStr (((df.col? "index").getD []).map cellLabel)
  let periods := sortStr (dedupFirstStr (((df.col? pId).getD []).map cellLabel))
  { cols := keys, idx := periods,
    cells := periods.map (fun p => keys.map (fun k => lookupDataCell df pId k p)) }

/-- Models `df.reset_index()`: the index (named `index` after
`set_index`) becomes the leading column and a fresh RangeIndex is installed. -/
def resetIndex (df : DF) : DF :=
  { cols := "index" :: df.cols,
    idx := (List.range df.cells.length).map (fun i => toString i),
    cells := (df.idx.zip df.cells).map (fun p => Cell.s p.1 :: p.2) }

/-- The assembled numeric payload: a pandas Series (vector) or DataFrame
(matrix). -/
inductive Payload where
  | series (name : String) (idx : List String) (vals : List Cell)
  | frame (df : DF)
deriving DecidableEq

inductive DType where
  | str | float64 | obj
deriving DecidableEq

/-- Models `df.astype(dtypes)` for a column-to-type mapping.  Only `str`
conversions are ever applied by the source (see the zip truncation in
`_construct_data`); the numeric dtypes are modelled as the identity and a
missing column is ignored, both being unreachable there. -/
def astypeDF (df : DF) (assigns : List (String × DType)) : DF :=
  assigns.foldl
    (fun d a =>
      match d.col? a.1 with
      | none => d
      | some col =>
          match a.2 with
          | .str => d.setCol a.1 (col.map (fun c => Cell.s (pyStrCell c)))
          | _ => d)
    df

/-- Embedding of `DataResponse._construct_data` (lines 259-318).  In order:
stringify the raw `DataValue` column and strip thousands separators; try a
whole-column numeric coercion, falling back to coercing only the
`str.isnumeric()` subset (`except ValueError`, lines 279-283); compute
`data = DataValue * 10**UNIT_MULT` when a `UNIT_MULT` column exists
(`except AttributeError` otherwise, lines 286-294); apply
`astype(dict(zip(df.columns, (str, str, data_dtype))))` — the zip truncates
against the two remaining columns, mapping both the period column and the
`data` column to `str` and discarding `data_dtype` (lines 296-298); then
return a Series named after the single period when `nunique() == 1`
(`squeeze()` collapses a 1x1 frame to a scalar, whose `.rename` raises
`AttributeError`), or the reshaped wide frame otherwise. -/
def construct_data (pId : String) (df : DF) : Except BuildError Payload :=
  match df.col? "DataValue" with
  | none => .error (.fieldNotFound "DataValue")
  | some dv0 =>
  let dv1 : List Cell := dv0.map (fun c => Cell.s (stripCommas (pyStrCell c)))
  let coerced :=
    match dv1.mapM toNumericCell with
    | some nums => (nums, DType.float64)
    | none =>
        (dv1.map (fun c =>
          match c with
          | Cell.s t =>
              if pyIsNumeric t then
                match pyToNumeric t with
                | some q => Cell.n q
                | none => Cell.s t
              else Cell.s t
          | other => other), DType.obj)
  let dv2 := coerced.1
  let data_dtype := coerced.2
  let df1 := df.setCol "DataValue" dv2
  let df2E : Except BuildError DF :=
    match df1.col? "UNIT_MULT" with
    | some um =>
        match um.mapM toNumericCell with
        | none => .error (.malformed "UNIT_MULT")
        | some expos =>
            match expos.mapM npPower10 with
            | .error e => .error e
            | .ok pows =>
                match (dv2.zip pows).mapM (fun p => npMul p.1 p.2) with
                | .error e => .error e
                | .ok dataVals =>
                    .ok ((df1.setCol "data" dataVals).dropCols
                      ["DataValue", "UNIT_MULT"])
    | none => .ok ((df1.setCol "data" dv2).dropCols ["DataValue"])
  match df2E with
  | .error e => .error e
  | .ok df2 =>
  let df3 := astypeDF df2 (df2.cols.zip [DType.str, DType.str, data_dtype])
  match df3.col? pId with
  | none => .error (.fieldNotFound pId)
  | some pcol =>
  let distinct := dedupFirstStr ((pcol.filter (fun c => c != Cell.nan)).map cellLabel)
  if distinct.length = 1 then
    match pcol with
    | [] => .error (.malformed "iloc[0] on empty frame")
    | p :: _ =>
        let dropped := df3.dropCols [pId]
        if dropped.cells.length = 1 && dropped.cols.length = 1 then
          .error (.malformed "AttributeError: scalar has no rename")
        else if dropped.cols.length = 1 then
          .ok (.series (cellLabel p) dropped.idx
            (dropped.cells.map (fun r => r.getD 0 .nan)))
        else .error (.malformed "rename on unexpected shape")
  else
    .ok (.frame (dataFormatter_format (resetIndex df3) pId))

/-- Models `df.drop_duplicates()`: keep the first of any rows with identical
cells (the index label plays no part in the comparison). -/
def dropDupRows (df : DF) : DF :=
  let kept := (df.idx.zip df.cells).foldl
    (fun acc p => if acc.any (fun q => q.2 == p.2) then acc else acc ++ [p]) []
  { df with idx := kept.map (fun p => p.1), cells := kept.map (fun p => p.2) }

/-- Embedding of `DataResponse._construct_metadata` (lines 321-341): replace
footnote references by footnote text when both footnotes and a `NoteRef`
column exist (footnotes without the column only warn), then de-duplicate
rows. -/
def construct_metadata (notes : List (String × String)) (md : DF) : DF :=
  let md1 :=
    if notes.isEmpty then md
    else if !(md.cols.contains "NoteRef") then md
    else
      match md.col? "NoteRef" with
      | some nr =>
          (md.setCol "Notes" (nr.map (fun c =>
            match c with
            | .s r =>
                match dictGet notes r with
                | some t => Cell.s t
                | none => Cell.nan
            | _ => Cell.nan))).dropCols ["NoteRef"]
      | none => md
  dropDupRows md1

/-- The contents of a constructed `DataResponse`. -/
structure DataResp where
  dimensions : List (String × DimInfo)
  notes : List (String × String)
  payload : Payload
  metadata : DF
deriving DecidableEq

/-- Embedding of `DataResponse.__init__` together with
`_construct_data_and_metadata` (lines 205-256): locate `Dimensions`, locate
and remove `Notes` (optional) and `Data`, set the shared composite-key index,
split the columns into value columns (period identifier, `DataValue`, and
`UNIT_MULT` when that dimension is declared) versus metadata columns, and
build the payload and the metadata frame. -/
def mkDataResponse (request : List (String × Doc)) (_url : String)
    (bea_json : Doc) : Except BuildError DataResp :=
  match getitem_any_level bea_json "Dimensions" false with
  | none => .error (.fieldNotFound "Dimensions")
  | some (dimsDoc, _) =>
  match parseDimensions dimsDoc with
  | .error e => .error e
  | .ok dims =>
  match notesStep bea_json with
  | .error e => .error e
  | .ok (notes, json1) =>
  match getitem_any_level json1 "Data" true with
  | none => .error (.fieldNotFound "Data")
  | some (dataDoc, _) =>
  match rowsOfDoc dataDoc with
  | none => .error (.malformed "Data rows")
  | some rows =>
  match set_unique_index request (pdDataFrame rows) with
  | .error e => .error e
  | .ok dfMd =>
  match period_identifier request with
  | .error e => .error e
  | .ok pId =>
  let dataCols := if (dictGet dims "UNIT_MULT").isSome
                  then [pId, "DataValue", "UNIT_MULT"]
                  else [pId, "DataValue"]
  match dfMd.selectCols dataCols with
  | none => .error (.fieldNotFound "data columns")
  | some dfData =>
  let dfMeta := (dfMd.selectCols
    (dfMd.cols.filter (fun c => !(dataCols.contains c)))).getD dfMd
  match construct_data pId dfData with
  | .error e => .error e
  | .ok payload =>
      .ok { dimensions := dims, notes := notes, payload := payload,
            metadata := construct_metadata notes dfMeta }

/-- The four response kinds the module can build. -/
inductive ResponseKind where
  | datasetList
  | parameterList
  | parameterValues
  | data
deriving DecidableEq

/-- Embedding of the `response_classes` dispatch dict (lines 442-448): the
method name maps to the builder class; `none` models the `KeyError` of an
unrecognized method.  `GETPARAMETERVALUES` and `GETPARAMETERVALUESFILTERED`
map to the same builder, `ParameterValuesResponse`. -/
def response_classes (method : String) : Option ResponseKind :=
  if method = "GETDATASETLIST" then some .datasetList
  else if method = "GETPARAMETERLIST" then some .parameterList
  else if method = "GETPARAMETERVALUES" then some .parameterValues
  else if method = "GETPARAMETERVALUESFILTERED" then some .parameterValues
  else if method = "GETDATA" then some .data
  else none

/-- The typed response object returned by `BEAResponse.from_response`. -/
inductive Response where
  | datasetList (request : List (String × Doc)) (url : String)
      (datasets : List (String × Doc))
  | parameterList (request : List (String × Doc)) (url : String)
      (parameters : List (String × Doc))
  | parameterValues (request : List (String × Doc)) (url : String)
      (parameters : List (String × Doc))
  | data (request : List (String × Doc)) (url : String) (resp : DataResp)

/-- Embedding of `DatasetListResponse.__init__` (lines 171-178): the result
block's own `Dataset` entry (a direct dict access, not a deep locate) is a
sequence of rows each providing `DatasetName` and `DatasetDescription`. -/
def mkDatasetList (request : List (String × Doc)) (result : Doc)
    (url : String) : Except BuildError Response :=
  match result with
  | .dict kvs =>
      match dictGet kvs "Dataset" with
      | some (.list rows) =>
          (rows.foldlM (fun acc r =>
            match r with
            | Doc.dict rkvs =>
                match dictGet rkvs "DatasetName",
                      dictGet rkvs "DatasetDescription" with
                | some (.str nm), some dsc => Except.ok (insertPy acc nm dsc)
                | some _, some _ => Except.error (BuildError.malformed "DatasetName")
                | _, _ => Except.error (BuildError.fieldNotFound "DatasetName")
            | _ => Except.error (BuildError.malformed "Dataset row")) []).map
            (fun ds => Response.datasetList request url ds)
      | some _ => .error (.malformed "Dataset")
      | none => .error (.fieldNotFound "Dataset")
  | _ => .error (.malformed "result")

/-- Embedding of `ParameterListResponse.__init__` (lines 181-189): each row's
`ParameterName` is popped and becomes the key; the remaining descriptor
fields are the value. -/
def mkParameterList (request : List (String × Doc)) (result : Doc)
    (url : String) : Except BuildError Response :=
  match result with
  | .dict kvs =>
      match dictGet kvs "Parameter" with
      | some (.list rows) =>
          (rows.foldlM (fun acc r =>
            match r with
            | Doc.dict rkvs =>
                match dictGet rkvs "ParameterName" with
                | some (.str nm) =>
                    Except.ok (insertPy acc nm
                      (Doc.dict (dictRemove rkvs "ParameterName")))
                | some _ => Except.error (BuildError.malformed "ParameterName")
                | none => Except.error (BuildError.fieldNotFound "ParameterName")
            | _ => Except.error (BuildError.malformed "Parameter row")) []).map
            (fun ps => Response.parameterList request url ps)
      | some _ => .error (.malformed "Parameter")
      | none => .error (.fieldNotFound "Parameter")
  | _ => .error (.malformed "result")

/-- Embedding of `ParameterValuesResponse.__init__` (lines 192-200):
`key, description = tuple(p.values())` unpacks each row's values positionally
and therefore requires exactly two fields per row (any other arity raises
`ValueError`); the first value becomes the mapping key. -/
def mkParameterValues (request : List (String × Doc)) (result : Doc)
    (url : String) : Except BuildError Response :=
  match result with
  | .dict kvs =>
      match dictGet kvs "ParamValue" with
      | some (.list rows) =>
          (rows.foldlM (fun acc r =>
            match r with
            | Doc.dict [(_, kd), (_, dd)] =>
                match kd with
                | Doc.str k => Except.ok (insertPy acc k dd)
                | _ => Except.error (BuildError.malformed "unhashable ParamValue key")
            | Doc.dict _ => Except.error (BuildError.malformed "ParamValue arity")
            | _ => Except.error (BuildError.malformed "ParamValue row")) []).map
            (fun ps => Response.parameterValues request url ps)
      | some _ => .error (.malformed "ParamValue")
      | none => .error (.fieldNotFound "ParamValue")
  | _ => .error (.malformed "result")

/-- The builder dispatch `klass(request, result, url, bea_json=bea_json)`. -/
def buildResponse (kind : ResponseKind) (request : List (String × Doc))
    (result : Doc) (url : String) (bea_json : Doc) :
    Except BuildError Response :=
  match kind with
  | .datasetList => mkDatasetList request result url
  | .parameterList => mkParameterList request result url
  | .parameterValues => mkParameterValues request result url
  | .data => (mkDataResponse request url bea_json).map
      (fun r => Response.data request url r)

/-- The `request` reconstruction of `from_response` (lines 142-154): the
located `RequestParam` must be a sequence of mappings each providing
`ParameterName` and `ParameterValue`; a missing field is an uncaught
`KeyError`, a non-sequence an uncaught `TypeError`.  Duplicate names
overwrite as in a Python dict. -/
def mkRequestDict : Doc → Except BuildError (List (String × Doc))
  | .list rows =>
      rows.foldlM (fun acc r =>
        match r with
        | .dict kvs =>
            match dictGet kvs "ParameterName", dictGet kvs "ParameterValue" with
            | some (.str nm), some v => Except.ok (insertPy acc nm v)
            | some _, some _ => Except.error (BuildError.malformed "ParameterName")
            | _, _ => Except.error (BuildError.fieldNotFound "ParameterName")
        | _ => Except.error (BuildError.malformed "RequestParam row")) []
  | _ => .error (.malformed "RequestParam")

/-- Rendering of a located node inside an f-string.  Only string scalars
occur as error codes and descriptions in the claims below; container nodes
are rendered with a placeholder rather than a full Python repr. -/
def pyFormatDoc : Doc → String
  | .str t => t
  | .list _ => "<list>"
  | .dict _ => "<dict>"

/-- Embedding of `BEAAPIError.__init__` (lines 97-103): locate the code and
description inside the error block; `none` models the `KeyError` either
locate raises when the block lacks the field. -/
def mkAPIError (err : Doc) : Option (String × String) :=
  match getitem_any_level err "APIErrorCode" false with
  | none => none
  | some (c, _) =>
      match getitem_any_level err "APIErrorDescription" false with
      | none => none
      | some (d, _) => some (pyFormatDoc c, pyFormatDoc d)

/-- The part of `from_response` after the error check (lines 151-164):
pop `RequestParam` and rebuild the request mapping, locate `Results`, look
the method up in `response_classes`, and run the builder; only an exception
raised inside the builder call is caught (by the bare `except:`) and
re-raised as `ValueError('could not create BEAResponse. url is \n...')`.
The `KeyError` of a missing `RequestParam`, `Results` or `METHOD`, or of an
unrecognized method name, propagates unwrapped. -/
def from_response_rest (bea_json : Doc) (url : String) :
    Except BuildError Response :=
  match getitem_any_level bea_json "RequestParam" true with
  | none => .error (.fieldNotFound "RequestParam")
  | some (rp, json1) =>
      match mkRequestDict rp with
      | .error e => .error e
      | .ok request =>
          match getitem_any_level json1 "Results" false with
          | none => .error (.fieldNotFound "Results")
          | some (result, _) =>
              match dictGet request "METHOD" with
              | none => .error (.fieldNotFound "METHOD")
              | some (.str m) =>
                  match response_classes m with
                  | none => .error (.fieldNotFound m)
                  | some kind =>
                      match buildResponse kind request result url json1 with
                      | .ok r => .ok r
                      | .error _ => .error (.couldNotCreate url)
              | some _ => .error (.malformed "unhashable METHOD")

/-- Embedding of `BEAResponse.from_response` (lines 127-167) given an
already-parsed document tree and the originating URL.  The embedded-error
check runs first: locating `Error` and raising `BEAAPIError` happen inside
`try ... except KeyError: pass`, so both a missing `Error` block and a
`KeyError` raised while constructing `BEAAPIError` (an error block lacking
`APIErrorCode` or `APIErrorDescription`) are swallowed and building
proceeds. -/
def from_response (bea_json : Doc) (url : String) :
    Except BuildError Response :=
  match getitem_any_level bea_json "Error" false with
  | some (err, _) =>
      match mkAPIError err with
      | some (c, d) => .error (.apiError c d)
      | none => from_response_rest bea_json url
  | none => from_response_rest bea_json url

/-- Embedding of the module-level `create_response` (lines 452-454). -/
def create_response (bea_json : Doc) (url : String) :
    Except BuildError Response :=
  from_response bea_json url

/-- The data payload of a built response, when it is a data response. -/
def respPayload : Except BuildError Response → Option Payload
  | .ok (.data _ _ r) => some r.payload
  | _ => none

/-- The cells of a vector (Series) payload. -/
def respSeriesCells (r : Except BuildError Response) : Option (List Cell) :=
  match respPayload r with
  | some (.series _ _ vs) => some vs
  | _ => none

/-- The name (period label) of a vector payload. -/
def respSeriesName (r : Except BuildError Response) : Option String :=
  match respPayload r with
  | some (.series nm _ _) => some nm
  | _ => none

/-- The row index of a vector payload. -/
def respSeriesIdx (r : Except BuildError Response) : Option (List String) :=
  match respPayload r with
  | some (.series _ ix _) => some ix
  | _ => none

/-- The row index of a matrix payload. -/
def respFrameIdx (r : Except BuildError Response) : Option (List String) :=
  match respPayload r with
  | some (.frame df) => some df.idx
  | _ => none

/-- The column labels of a matrix payload. -/
def respFrameCols (r : Except BuildError Response) : Option (List String) :=
  match respPayload r with
  | some (.frame df) => some df.cols
  | _ => none

/-- The row index of the metadata table of a data response. -/
def respMetaIdx : Except BuildError Response → Option (List String)
  | .ok (.data _ _ r) => some r.metadata.idx
  | _ => none

/-- A `RequestParam` entry. -/
def paramRow (nm v : String) : Doc :=
  .dict [("ParameterName", .str nm), ("ParameterValue", .str v)]

/-- A `Dimensions` entry. -/
def dimRow (nm t v : String) : Doc :=
  .dict [("Name", .str nm), ("DataType", .str t), ("IsValue", .str v)]

/-- The request-parameter block of a `GETDATA` call on dataset `ds`. -/
def paramsGetData (ds : String) : Doc :=
  .list [paramRow "METHOD" "GETDATA", paramRow "DATASETNAME" ds]

/-- Sentinel-value document (dataset `iip`): the raw-value column holds the
numeric-looking string `12.5` and the disclosure sentinel `(D)`. -/
def docSentinel : Doc :=
  .dict [("BEAAPI", .dict [
    ("Request", .dict [("RequestParam", paramsGetData "iip")]),
    ("Results", .dict [
      ("Dimensions", .list [dimRow "TimeSeriesId" "string" "0",
                            dimRow "TimePeriod" "string" "0",
                            dimRow "DataValue" "numeric" "1"]),
      ("Data", .list [
        .dict [("TimeSeriesId", .str "A"), ("TimePeriod", .str "2019"),
               ("DataValue", .str "12.5")],
        .dict [("TimeSeriesId", .str "B"), ("TimePeriod", .str "2019"),
               ("DataValue", .str "(D)")]])])])]

/-- Rescaling document with an exponent column (dataset `nipa`): raw values
`1,234` and `5`, both with `UNIT_MULT` exponent `6`. -/
def docUnitMult : Doc :=
  .dict [("BEAAPI", .dict [
    ("Request", .dict [("RequestParam", paramsGetData "nipa")]),
    ("Results", .dict [
      ("Dimensions", .list [dimRow "SeriesCode" "string" "0",
                            dimRow "TimePeriod" "string" "0",
                            dimRow "DataValue" "numeric" "1",
                            dimRow "UNIT_MULT" "numeric" "0"]),
      ("Data", .list [
        .dict [("SeriesCode", .str "A"), ("TimePeriod", .str "2019"),
               ("DataValue", .str "1,234"), ("UNIT_MULT", .str "6")],
        .dict [("SeriesCode", .str "B"), ("TimePeriod", .str "2019"),
               ("DataValue", .str "5"), ("UNIT_MULT", .str "6")]])])])]

/-- Rescaling document without an exponent column (dataset `nipa`). -/
def docNoUnitMult : Doc :=
  .dict [("BEAAPI", .dict [
    ("Request", .dict [("RequestParam", paramsGetData "nipa")]),
    ("Results", .dict [
      ("Dimensions", .list [dimRow "SeriesCode" "string" "0",
                            dimRow "TimePeriod" "string" "0",
                            dimRow "DataValue" "numeric" "1"]),
      ("Data", .list [
        .dict [("SeriesCode", .str "A"), ("TimePeriod", .str "2019"),
               ("DataValue", .str "1,234")],
        .dict [("SeriesCode", .str "B"), ("TimePeriod", .str "2019"),
               ("DataValue", .str "5")]])])])]

/-- Single-observation document (dataset `nipa`): one row, hence one period
and one series. -/
def docOneRow : Doc :=
  .dict [("BEAAPI", .dict [
    ("Request", .dict [("RequestParam", paramsGetData "nipa")]),
    ("Results", .dict [
      ("Dimensions", .list [dimRow "SeriesCode" "string" "0",
                            dimRow "TimePeriod" "string" "0",
                            dimRow "DataValue" "numeric" "1"]),
      ("Data", .list [
        .dict [("SeriesCode", .str "A"), ("TimePeriod", .str "2019"),
               ("DataValue", .str "5")]])])])]

/-- Two-row single-period document (dataset `nipa`), the same data as
`docOneRow` with a second series added. -/
def docTwoRows : Doc :=
  .dict [("BEAAPI", .dict [
    ("Request", .dict [("RequestParam", paramsGetData "nipa")]),
    ("Results", .dict [
      ("Dimensions", .list [dimRow "SeriesCode" "string" "0",
                            dimRow "TimePeriod" "string" "0",
                            dimRow "DataValue" "numeric" "1"]),
      ("Data", .list [
        .dict [("SeriesCode", .str "A"), ("TimePeriod", .str "2019"),
               ("DataValue", .str "5")],
        .dict [("SeriesCode", .str "B"), ("TimePeriod", .str "2019"),
               ("DataValue", .str "7")]])])])]

/-- Multi-period `mne` document: one series (composite key `1_10_A`) observed
in 2019 and 2020. -/
def docMneTwoPeriods : Doc :=
  .dict [("BEAAPI", .dict [
    ("Request", .dict [("RequestParam", paramsGetData "mne")]),
    ("Results", .dict [
      ("Dimensions", .list [dimRow "SeriesID" "string" "0",
                            dimRow "RowCode" "string" "0",
                            dimRow "ColumnCode" "string" "0",
                            dimRow "Year" "string" "0",
                            dimRow "DataValue" "numeric" "1"]),
      ("Data", .list [
        .dict [("SeriesID", .str "1"), ("RowCode", .str "10"),
               ("ColumnCode", .str "A"), ("Year", .str "2019"),
               ("DataValue", .str "3")],
        .dict [("SeriesID", .str "1"), ("RowCode", .str "10"),
               ("ColumnCode", .str "A"), ("Year", .str "2020"),
               ("DataValue", .str "4")]])])])]

/-- Single-period `mne` document with two series, composite keys `1_10_A`
and `1_10_B`. -/
def docMneOnePeriod : Doc :=
  .dict [("BEAAPI", .dict [
    ("Request", .dict [("RequestParam", paramsGetData "mne")]),
    ("Results", .dict [
      ("Dimensions", .list [dimRow "SeriesID" "string" "0",
                            dimRow "RowCode" "string" "0",
                            dimRow "ColumnCode" "string" "0",
                            dimRow "Year" "string" "0",
                            dimRow "DataValue" "numeric" "1"]),
      ("Data", .list [
        .dict [("SeriesID", .str "1"), ("RowCode", .str "10"),
               ("ColumnCode", .str "A"), ("Year", .str "2019"),
               ("DataValue", .str "3")],
        .dict [("SeriesID", .str "1"), ("RowCode", .str "10"),
               ("ColumnCode", .str "B"), ("Year", .str "2019"),
               ("DataValue", .str "4")]])])])]

/-- Document whose `Error` block lacks `APIErrorDescription` but which is
otherwise a well-formed `GETDATASETLIST` response. -/
def docBadErrorBlock : Doc :=
  .dict [("BEAAPI", .dict [
    ("Error", .dict [("APIErrorCode", .str "3")]),
    ("Request", .dict [("RequestParam", .list [paramRow "METHOD" "GETDATASETLIST"])]),
    ("Results", .dict [("Dataset", .list [
      .dict [("DatasetName", .str "NIPA"),
             ("DatasetDescription", .str "national accounts")]])])])]

/-- Document with a complete embedded `Error` block. -/
def docApiError : Doc :=
  .dict [("BEAAPI", .dict [
    ("Error", .dict [("APIErrorCode", .str "3"),
                     ("APIErrorDescription", .str "bad request")])])]

/-- Well-formed document whose request names an unrecognized method. -/
def docBadMethod : Doc :=
  .dict [("BEAAPI", .dict [
    ("Request", .dict [("RequestParam", .list [paramRow "METHOD" "GETFOO"])]),
    ("Results", .dict [("Dataset", .list [])])])]

/-- `GETDATA` document over a dataset absent from the IdentifierRules table. -/
def docUnknownDataset : Doc :=
  .dict [("BEAAPI", .dict [
    ("Request", .dict [("RequestParam", paramsGetData "FOOBAR")]),
    ("Results", .dict [
      ("Dimensions", .list [dimRow "SeriesCode" "string" "0",
                            dimRow "TimePeriod" "string" "0",
                            dimRow "DataValue" "numeric" "1"]),
      ("Data", .list [
        .dict [("SeriesCode", .str "A"), ("TimePeriod", .str "2019"),
               ("DataValue", .str "5")]])])])]

/-- `GETPARAMETERVALUESFILTERED` document with one two-field value row. -/
def docValuesFiltered : Doc :=
  .dict [("BEAAPI", .dict [
    ("Request", .dict [("RequestParam",
      .list [paramRow "METHOD" "GETPARAMETERVALUESFILTERED"])]),
    ("Results", .dict [("ParamValue", .list [
      .dict [("Key", .str "Q1"), ("Desc", .str "First quarter")]])])])]

/-- A request mapping naming the `mne` dataset, used as a witness input. -/
def reqMne : List (String × Doc) := [("DATASETNAME", .str "mne")]

/-- A request mapping naming a dataset outside the IdentifierRules table. -/
def reqFoo : List (String × Doc) := [("DATASETNAME", .str "FOOBAR")]

/-- A two-row frame with the three `mne` identifier columns. -/
def dfMne : DF :=
  { cols := ["SeriesID", "RowCode", "ColumnCode"], idx := ["0", "1"],
    cells := [[.s "1", .s "10", .s "A"], [.s "1", .s "10", .s "B"]] }

/-- A tree containing the key `k` at exactly one position. -/
def docPopExample : Doc :=
  .dict [("a", .dict [("k", .str "v")]), ("b", .str "w")]

mutual

/-- Whether `getitem_any_level` succeeds does not depend on the `pop` flag:
both traversals visit the same nodes in the same order. -/
theorem getitem_pop_irrel (d : Doc) (key : String) (b1 b2 : Bool) :
    (getitem_any_level d key b1).isSome = (getitem_any_level d key b2).isSome := by
  match d with
  | .str s => rfl
  | .list [] => rfl
  | .list (x :: rest) =>
      have ih := getitem_pop_irrel x key b1 b2
      simp only [getitem_any_level]
      cases h1 : getitem_any_level x key b1 with
      | none =>
          cases h2 : getitem_any_level x key b2 with
          | none => rfl
          | some p => rw [h1, h2] at ih; simp at ih
      | some p =>
          cases h2 : getitem_any_level x key b2 with
          | none => rw [h1, h2] at ih; simp at ih
          | some q => rfl
  | .dict kvs =>
      have ih := gialChildren_pop_irrel kvs key b1 b2
      simp only [getitem_any_level]
      cases dictGet kvs key with
      | some v => cases b1 <;> cases b2 <;> rfl
      | none =>
          cases h1 : gialChildren kvs key b1 with
          | none =>
              cases h2 : gialChildren kvs key b2 with
              | none => rfl
              | some p => rw [h1, h2] at ih; simp at ih
          | some p =>
              cases h2 : gialChildren kvs key b2 with
              | none => rw [h1, h2] at ih; simp at ih
              | some q => rfl

theorem gialChildren_pop_irrel (kvs : List (String × Doc)) (key : String)
    (b1 b2 : Bool) :
    (gialChildren kvs key b1).isSome = (gialChildren kvs key b2).isSome := by
  match kvs with
  | [] => rfl
  | (k, v) :: rest =>
      have ih1 := getitem_pop_irrel v key b1 b2
      have ih2 := gialChildren_pop_irrel rest key b1 b2
      simp only [gialChildren]
      cases h1 : getitem_any_level v key b1 with
      | some p =>
          cases h2 : getitem_any_level v key b2 with
          | some q => rfl
          | none => rw [h1, h2] at ih1; simp at ih1
      | none =>
          cases h2 : getitem_any_level v key b2 with
          | some q => rw [h1, h2] at ih1; simp at ih1
          | none =>
              cases h3 : gialChildren rest key b1 with
              | some p =>
                  cases h4 : gialChildren rest key b2 with
                  | some q => rfl
                  | none => rw [h3, h4] at ih2; simp at ih2
              | none =>
                  cases h4 : gialChildren rest key b2 with
                  | some q => rw [h3, h4] at ih2; simp at ih2
                  | none => rfl

end

/-- A level with no occurrence of `k` has no direct entry for `k`. -/
theorem countKeyKV_zero_dictGet (kvs : List (String × Doc)) (k : String)
    (h : countKeyKV kvs k = 0) : dictGet kvs k = none := by
  induction kvs with
  | nil => rfl
  | cons hd tl ih =>
      obtain ⟨k0, v0⟩ := hd
      rw [countKeyKV] at h
      by_cases hk : k0 = k
      · rw [if_pos hk] at h; omega
      · rw [dictGet, if_neg hk]
        apply ih
        omega

mutual

/-- The locator fails on a tree with no occurrence of the key. -/
theorem countKey_zero_getitem (d : Doc) (k : String) (b : Bool)
    (h : countKey d k = 0) : getitem_any_level d k b = none := by
  match d with
  | .str s => rfl
  | .list [] => rfl
  | .list (x :: rest) =>
      rw [countKey, countKeyL] at h
      have hx : countKey x k = 0 := by omega
      simp only [getitem_any_level, countKey_zero_getitem x k b hx]
  | .dict kvs =>
      rw [countKey] at h
      simp only [getitem_any_level, countKeyKV_zero_dictGet kvs k h,
        countKeyKV_zero_children kvs k b h]

theorem countKeyKV_zero_children (kvs : List (String × Doc)) (k : String)
    (b : Bool) (h : countKeyKV kvs k = 0) : gialChildren kvs k b = none := by
  match kvs with
  | [] => rfl
  | (k0, v0) :: rest =>
      rw [countKeyKV] at h
      have hv : countKey v0 k = 0 := by omega
      have hr : countKeyKV rest k = 0 := by omega
      simp only [gialChildren, countKey_zero_getitem v0 k b hv,
        countKeyKV_zero_children rest k b hr]

end

/-- Popping a present entry strictly decreases the occurrence count. -/
theorem dictRemove_count_lt (kvs : List (String × Doc)) (k : String) (v : Doc)
    (h : dictGet kvs k = some v) :
    countKeyKV (dictRemove kvs k) k < countKeyKV kvs k := by
  induction kvs with
  | nil => simp [dictGet] at h
  | cons hd tl ih =>
      obtain ⟨k0, v0⟩ := hd
      by_cases hk : k0 = k
      · rw [dictRemove, if_pos hk, countKeyKV, if_pos hk]
        omega
      · rw [dictGet, if_neg hk] at h
        rw [dictRemove, if_neg hk, countKeyKV, countKeyKV, if_neg hk]
        have := ih h
        omega

mutual

/-- A successful locate-and-remove strictly decreases the occurrence count. -/
theorem getitem_pop_lt (d : Doc) (k : String) (v d2 : Doc)
    (h : getitem_any_level d k true = some (v, d2)) :
    countKey d2 k < countKey d k := by
  match d with
  | .str s => simp [getitem_any_level] at h
  | .list [] => simp [getitem_any_level] at h
  | .list (x :: rest) =>
      rw [getitem_any_level] at h
      cases hx : getitem_any_level x k true with
      | none => rw [hx] at h; simp at h
      | some p =>
          obtain ⟨fv, x2⟩ := p
          rw [hx] at h
          simp only [Option.some.injEq, Prod.mk.injEq] at h
          obtain ⟨hv, hd2⟩ := h
          subst hd2
          have := getitem_pop_lt x k fv x2 hx
          rw [countKey, countKey, countKeyL, countKeyL]
          omega
  | .dict kvs =>
      rw [getitem_any_level] at h
      cases hg : dictGet kvs k with
      | some v0 =>
          rw [hg] at h
          simp only [if_true, Option.some.injEq, Prod.mk.injEq] at h
          obtain ⟨hv, hd2⟩ := h
          subst hd2
          rw [countKey, countKey]
          exact dictRemove_count_lt kvs k v0 hg
      | none =>
          rw [hg] at h
          cases hc : gialChildren kvs k true with
          | none => rw [hc] at h; simp at h
          | some p =>
              obtain ⟨fv, kvs2⟩ := p
              rw [hc] at h
              simp only [Option.some.injEq, Prod.mk.injEq] at h
              obtain ⟨hv, hd2⟩ := h
              subst hd2
              rw [countKey, countKey]
              exact gialChildren_pop_lt kvs k fv kvs2 hc

theorem gialChildren_pop_lt (kvs : List (String × Doc)) (k : String)
    (fv : Doc) (kvs2 : List (String × Doc))
    (h : gialChildren kvs k true = some (fv, kvs2)) :
    countKeyKV kvs2 k < countKeyKV kvs k := by
  match kvs with
  | [] => simp [gialChildren] at h
  | (k0, v0) :: rest =>
      rw [gialChildren] at h
      cases hx : getitem_any_level v0 k true with
      | some p =>
          obtain ⟨fv0, v2⟩ := p
          rw [hx] at h
          simp only [Option.some.injEq, Prod.mk.injEq] at h
          obtain ⟨hfv, hkvs⟩ := h
          subst hkvs
          have := getitem_pop_lt v0 k fv0 v2 hx
          rw [countKeyKV, countKeyKV]
          omega
      | none =>
          rw [hx] at h
          cases hr : gialChildren rest k true with
          | none => rw [hr] at h; simp at h
          | some p =>
              obtain ⟨fv0, rest2⟩ := p
              rw [hr] at h
              simp only [Option.some.injEq, Prod.mk.injEq] at h
              obtain ⟨hfv, hkvs⟩ := h
              subst hkvs
              have := gialChildren_pop_lt rest k fv0 rest2 hr
              rw [countKeyKV, countKeyKV]
              omega

end

/-- Concatenating string columns with `.str.cat` is the lift of string
concatenation with the `_` separator. -/
theorem zipWith_pyStrCat_map (xs ys : List String) :
    List.zipWith pyStrCat (xs.map Cell.s) (ys.map Cell.s)
      = (List.zipWith (fun a b => a ++ "_" ++ b) xs ys).map Cell.s := by
  induction xs generalizing ys with
  | nil => simp
  | cons x xt ih =>
      cases ys with
      | nil => simp
      | cons y yt => simp [pyStrCat, ih]

theorem map_cellLabel_map_s (l : List String) :
    (l.map Cell.s).map cellLabel = l := by
  induction l with
  | nil => rfl
  | cons x xt ih => simp [cellLabel, ih]

theorem string_data_append (a b : String) : (a ++ b).data = a.data ++ b.data :=
  rfl

theorem charsPre_self (l : List Char) : charsPre l l = true := by
  induction l with
  | nil => rfl
  | cons c t ih => simp [charsPre, ih]

theorem charsIncl_self (n : List Char) : charsIncl n n = true := by
  cases n with
  | nil => rfl
  | cons c t => simp [charsIncl, charsPre_self]

/-- A string occurs inside anything it suffixes. -/
theorem charsIncl_append (n p : List Char) : charsIncl n (p ++ n) = true := by
  induction p with
  | nil => simpa using charsIncl_self n
  | cons c t ih => simp [charsIncl, ih]

/-- Claim C1: the claim states that when the current node is a non-string
sequence the locator recurses into each element and returns the first
success, finding a key that occurs only in a later element of a
multi-element sequence.  Evaluating the embedded code at the failing input
shows the opposite: with the key `k` present only in the second element of a
two-element sequence the locator raises `KeyError` (returns `none`), because
the sequence branch returns from the first element unconditionally; the
single-element wrapping case the dict branch relies on does succeed. -/
theorem claim_C1_sequence_search_first_element_only :
    getitem_any_level
      (.list [.dict [("a", .str "x")], .dict [("k", .str "v")]]) "k" false
      = none
    ∧ getitem_any_level (.list [.dict [("k", .str "v")]]) "k" false
      = some (.str "v", .list [.dict [("k", .str "v")]]) :=
  ⟨rfl, rfl⟩

/-- Claim C2: the claim states that a raw-value column `["12.5", "(D)"]`
yields the mixed column `[12.5, "(D)"]`, with exactly the numeric-looking
entries coerced.  Evaluating the embedded code shows that building does not
raise, but the resulting value column is `["12.5", "(D)"]` with *both*
entries left as strings: the fallback mask uses `str.isnumeric()`, which is
false for `"12.5"` because of the decimal point, so the numeric-looking
entry is never coerced. -/
theorem claim_C2_sentinel_column_not_coerced :
    exceptIsError (from_response docSentinel "u") = false
    ∧ respSeriesCells (from_response docSentinel "u")
      = some [Cell.s "12.5", Cell.s "(D)"] :=
  ⟨rfl, rfl⟩

/-- Claim C3: the claim states that an `Error` block lacking `APIErrorCode`
or `APIErrorDescription` makes response building fail as a fatal
malformed-response condition.  Evaluating the embedded code on a document
whose `Error` block has a code but no description shows that building
SUCCEEDS and returns an ordinary dataset-list response: the `KeyError`
raised inside `BEAAPIError.__init__` is swallowed by the same
`except KeyError: pass` that handles the absence of an `Error` block
(second conjunct: the error constructor indeed signals `KeyError` on the
incomplete block). -/
theorem claim_C3_incomplete_error_block_ignored :
    from_response docBadErrorBlock "https://x"
      = .ok (.datasetList [("METHOD", Doc.str "GETDATASETLIST")] "https://x"
          [("NIPA", Doc.str "national accounts")])
    ∧ mkAPIError (Doc.dict [("APIErrorCode", Doc.str "3")]) = none :=
  ⟨rfl, rfl⟩

/-- Claim C4: the claim states that observation rows spanning exactly one
period value always produce a vector payload.  Evaluating the embedded code
on a one-row data response (necessarily a single period) shows building
fails with the wrapped `ValueError` instead: `squeeze()` collapses the 1x1
frame to a scalar and the subsequent `.rename` raises `AttributeError`.
With two rows sharing the period the vector is produced as claimed, and a
two-period response produces the matrix with chronologically ordered rows
(per the Reshaper contract). -/
theorem claim_C4_single_row_vector_fails :
    from_response docOneRow "https://u" = .error (.couldNotCreate "https://u")
    ∧ respSeriesName (from_response docTwoRows "u") = some "2019"
    ∧ respSeriesIdx (from_response docTwoRows "u") = some ["A", "B"]
    ∧ respFrameIdx (from_response docMneTwoPeriods "u")
      = some ["2019", "2020"] :=
  ⟨rfl, rfl, rfl, rfl⟩

/-- Claim C5: the claim states that raw value `"1,234"` with exponent `6`
yields the numeric value `1234000000` and raw value `"5"` with no exponent
field yields `5`.  Evaluating the embedded code shows the rescaling
arithmetic is performed as claimed, but the resulting payload stores the
decimal STRINGS `"1234000000"` and `"5"` rather than numbers: the
`astype` mapping built by `dict(zip(df.columns, (str, str, data_dtype)))`
zips two columns against three types, casting the `data` column to `str`
and discarding the computed `data_dtype`. -/
theorem claim_C5_values_stored_as_strings :
    respSeriesCells (from_response docUnitMult "u")
      = some [Cell.s "1234000000", Cell.s "5000000"]
    ∧ respSeriesCells (from_response docNoUnitMult "u")
      = some [Cell.s "1234", Cell.s "5"] :=
  ⟨rfl, rfl⟩

/-- Claim C6 (counterexample): on a two-period `mne` response the composite
key `1_10_A` is NOT the row index of the numeric payload — the payload is a
matrix whose row index is the period labels and whose columns are the
composite keys — refuting the claim that the key is the row index shared by
the numeric payload and the metadata table for every data response. -/
theorem claim_C6_counterexample_matrix_row_index :
    respFrameIdx (from_response docMneTwoPeriods "u") = some ["2019", "2020"]
    ∧ respFrameCols (from_response docMneTwoPeriods "u") = some ["1_10_A"]
    ∧ respMetaIdx (from_response docMneTwoPeriods "u") = some ["1_10_A"]
    ∧ (["2019", "2020"] : List String) ≠ ["1_10_A"] :=
  ⟨rfl, rfl, rfl, by decide⟩

/-- Claim C6 (amended): for dataset `mne` the composite row key of each
observation is the concatenation of `SeriesID`, `RowCode` and `ColumnCode`
joined by `_` in declared order (for values `1`, `10`, `A` the key is
`1_10_A`); this key is the row index of the shared observation frame both
tables are built from, the row index of the metadata table and of the
single-period vector payload, and the column labels of the multi-period
matrix payload. -/
theorem claim_C6_amended_composite_key (df : DF) (sids rcs ccs : List String)
    (request : List (String × Doc))
    (hreq : dictGet request "DATASETNAME" = some (.str "mne"))
    (hS : df.col? "SeriesID" = some (sids.map Cell.s))
    (hR : df.col? "RowCode" = some (rcs.map Cell.s))
    (hC : df.col? "ColumnCode" = some (ccs.map Cell.s)) :
    set_unique_index request df
      = .ok { df with idx := (List.zipWith (fun a b => a ++ "_" ++ b)
          (List.zipWith (fun a b => a ++ "_" ++ b) sids rcs) ccs) }
    ∧ respSeriesIdx (from_response docMneOnePeriod "u")
      = some ["1_10_A", "1_10_B"]
    ∧ respMetaIdx (from_response docMneOnePeriod "u")
      = some ["1_10_A", "1_10_B"]
    ∧ respFrameCols (from_response docMneTwoPeriods "u") = some ["1_10_A"] := by
  refine ⟨?_, rfl, rfl, rfl⟩
  have hsi : series_identifiers request
      = .ok (.multi ["SeriesID", "RowCode", "ColumnCode"]) := by
    simp only [series_identifiers, hreq]
    rfl
  simp only [set_unique_index, hsi, hS]
  simp only [catColumns, hR, hC]
  rw [zipWith_pyStrCat_map, zipWith_pyStrCat_map]
  simp only [setIndexFrom, map_cellLabel_map_s]

/-- Claim C6 (witness): the amended theorem instantiated at a concrete
two-row `mne` frame with identifier values `1`, `10`, `A`/`B`. -/
theorem claim_C6_amended_composite_key_witness :
    (dictGet reqMne "DATASETNAME" = some (Doc.str "mne")
      ∧ dfMne.col? "SeriesID" = some (["1", "1"].map Cell.s)
      ∧ dfMne.col? "RowCode" = some (["10", "10"].map Cell.s)
      ∧ dfMne.col? "ColumnCode" = some (["A", "B"].map Cell.s))
    ∧ (set_unique_index reqMne dfMne
        = .ok { dfMne with
                idx := List.zipWith (fun a b => a ++ "_" ++ b)
                         (List.zipWith (fun a b => a ++ "_" ++ b)
                           ["1", "1"] ["10", "10"]) ["A", "B"] }
      ∧ respSeriesIdx (from_response docMneOnePeriod "u")
        = some ["1_10_A", "1_10_B"]
      ∧ respMetaIdx (from_response docMneOnePeriod "u")
        = some ["1_10_A", "1_10_B"]
      ∧ respFrameCols (from_response docMneTwoPeriods "u")
        = some ["1_10_A"]) :=
  ⟨⟨rfl, rfl, rfl, rfl⟩,
    claim_C6_amended_composite_key dfMne ["1", "1"] ["10", "10"] ["A", "B"]
      reqMne rfl rfl rfl rfl⟩

/-- Claim C7 (counterexample): an embedded API error aborts building, but
the surfaced message is `API Code: 3. Description: bad request`, which does
not include the originating request URL — refuting the claim that every
fatal failure surfaces an error whose message includes the URL. -/
theorem claim_C7_counterexample_api_error_message :
    from_response docApiError "https://apps.bea.gov/api/data"
      = .error (.apiError "3" "bad request")
    ∧ strIncl "https://apps.bea.gov/api/data"
        (errMessage (.apiError "3" "bad request")) = false :=
  ⟨rfl, rfl⟩

/-- Claim C7 (amended): only failures raised inside the builder constructor
are wrapped into a single `ValueError` whose message contains the
originating URL (for example an unknown dataset); an embedded API error
surfaces with code and description but without the URL, and an unsupported
method name surfaces as a bare `KeyError` carrying only the method name.  In
every fatal case building returns an error and no response object. -/
theorem claim_C7_amended_url_wrapping :
    (∀ url : String, strIncl url (errMessage (.couldNotCreate url)) = true)
    ∧ from_response docUnknownDataset "https://z"
      = .error (.couldNotCreate "https://z")
    ∧ from_response docBadMethod "https://y" = .error (.fieldNotFound "GETFOO")
    ∧ strIncl "https://y" (errMessage (.fieldNotFound "GETFOO")) = false := by
  refine ⟨?_, rfl, rfl, rfl⟩
  intro url
  show charsIncl url.data
    (("could not create BEAResponse. url is \n" ++ url).data) = true
  rw [string_data_append]
  exact charsIncl_append url.data _

/-- Claim C8: for every data response whose `DATASETNAME`, compared
case-insensitively, is not one of the datasets in the IdentifierRules table,
`series_identifiers` raises the unknown-dataset `ValueError` and
`DataResponse` construction fails, whatever the rest of the document
contains. -/
theorem claim_C8_unknown_dataset_fails (request : List (String × Doc))
    (ds : String) (url : String) (bea_json : Doc)
    (h1 : dictGet request "DATASETNAME" = some (.str ds))
    (h2 : lowerString ds ∉ knownDatasets) :
    series_identifiers request = .error (.unknownDataset (lowerString ds))
    ∧ exceptIsError (mkDataResponse request url bea_json) = true := by
  simp only [knownDatasets, List.mem_cons, List.not_mem_nil, or_false,
    not_or] at h2
  obtain ⟨n1, n2, n3, n4, n5, n6, n7, n8, n9, n10, n11⟩ := h2
  have hsi : series_identifiers request
      = .error (.unknownDataset (lowerString ds)) := by
    simp [series_identifiers, h1, n1, n2, n3, n4, n5, n6, n7, n8, n9, n10, n11]
  have hsu : ∀ df : DF, set_unique_index request df
      = .error (.unknownDataset (lowerString ds)) := by
    intro df
    simp only [set_unique_index, hsi]
  refine ⟨hsi, ?_⟩
  simp only [mkDataResponse]
  split
  · rfl
  · split
    · rfl
    · split
      · rfl
      · split
        · rfl
        · split
          · rfl
          · split
            · rfl
            · rename_i dfMd heq
              rw [hsu] at heq
              simp at heq

/-- Claim C8 (witness): the theorem instantiated at dataset `FOOBAR` with an
otherwise arbitrary document. -/
theorem claim_C8_unknown_dataset_fails_witness :
    (dictGet reqFoo "DATASETNAME" = some (Doc.str "FOOBAR")
      ∧ lowerString "FOOBAR" ∉ knownDatasets)
    ∧ (series_identifiers reqFoo
        = .error (.unknownDataset (lowerString "FOOBAR"))
      ∧ exceptIsError (mkDataResponse reqFoo "u" (Doc.str "b")) = true) :=
  ⟨⟨rfl, by decide⟩,
    claim_C8_unknown_dataset_fails reqFoo "FOOBAR" "u" (Doc.str "b") rfl
      (by decide)⟩

/-- Claim C9: for every tree containing the key `k` at exactly one position,
locating `k` with `pop=True` and then locating `k` again on the resulting
tree fails with `KeyError`: removal on find actually detaches the field.
(When the first call itself fails — possible because the sequence branch
searches only the first element — the tree is unchanged and the second call
fails all the same.) -/
theorem claim_C9_pop_then_locate_fails (t : Doc) (k : String)
    (h : countKey t k = 1) :
    getitem_any_level (popTree t k) k false = none := by
  unfold popTree
  cases hp : getitem_any_level t k true with
  | none =>
      have hsome := getitem_pop_irrel t k true false
      rw [hp] at hsome
      cases hq : getitem_any_level t k false with
      | none => rfl
      | some p => rw [hq] at hsome; simp at hsome
  | some p =>
      obtain ⟨v, t2⟩ := p
      have hlt := getitem_pop_lt t k v t2 hp
      rw [h] at hlt
      have h0 : countKey t2 k = 0 := by omega
      simp only [hp]
      exact countKey_zero_getitem t2 k false h0

/-- Claim C9 (witness): the theorem instantiated at a concrete tree holding
`k` exactly once, nested one level down. -/
theorem claim_C9_pop_then_locate_fails_witness :
    countKey docPopExample "k" = 1
    ∧ getitem_any_level (popTree docPopExample "k") "k" false = none :=
  ⟨rfl, claim_C9_pop_then_locate_fails docPopExample "k" rfl⟩

/-- Claim C10: the response classifier accepts `GETPARAMETERVALUESFILTERED`
in addition to the four spec-implied method names, maps it to the same
builder as `GETPARAMETERVALUES`, and building such a response produces a
parameter-values response. -/
theorem claim_C10_values_filtered_method :
    response_classes "GETPARAMETERVALUESFILTERED" = some .parameterValues
    ∧ response_classes "GETPARAMETERVALUESFILTERED"
      = response_classes "GETPARAMETERVALUES"
    ∧ from_response docValuesFiltered "u"
      = .ok (.parameterValues
          [("METHOD", Doc.str "GETPARAMETERVALUESFILTERED")] "u"
          [("Q1", Doc.str "First quarter")]) :=
  ⟨rfl, rfl, rfl⟩
